import Mathlib

/-!
Verification development for the `watt_watcher` power-state classification
engine (`custom_components/watt_watcher/coordinator.py` and `sensor.py`).

The embedding models:
  * configured states (`states_config` entries) as `StateDef`,
  * the coordinator's configuration fields as `WWConfig`,
  * the coordinator's mutable fields as `Coord`,
  * one call of `_async_update_data` as the pure function `tick`,
    parameterised by a wall-clock timestamp `now : Nat` (seconds) that
    stands for every `datetime.now()` call made during that tick,
  * the snapshot dictionary the coordinator returns as an association
    list `List (String × Val)`,
  * the energy sensor's `_handle_coordinator_update` as `energyUpdate`,
  * the status sensor's `native_value` as `statusNativeValue`.

Power readings and thresholds are embedded as rationals; timestamps are
natural-number seconds (the Python code truncates elapsed times with
`int(...total_seconds())`, which agrees with `Nat` subtraction under a
monotone clock).
-/

set_option maxRecDepth 4000000

namespace WattWatcher

/-- One entry of the coordinator's `states_config`: a configured state with
its display name, numeric threshold, comparison direction (the strings
"greater" or "less", mirroring `COMPARISON_GREATER` / `COMPARISON_LESS`)
and icon. -/
structure StateDef where
  name : String
  threshold : ℚ
  comparison : String
  icon : String
deriving DecidableEq, Repr

/-- The coordinator's immutable configuration: the ordered state list and
the delay settings (`active_delay`, `finished_delay`, `idle_delay`,
`scan_interval`), all in seconds. -/
structure WWConfig where
  states : List StateDef
  activeDelay : Nat
  finishedDelay : Nat
  idleDelay : Nat
  scanInterval : Nat
deriving Repr

/-- The coordinator's mutable fields (`WattWatcherCoordinator.__init__`):
current power, current authoritative state string, the timestamp the state
was entered, the cycle start timestamp, and the three timer fields
`active_timer_start`, `finished_timer_start`, `bitti_start_time`. -/
structure Coord where
  currentPower : ℚ
  currentState : String
  stateStartTime : Nat
  cycleStartTime : Option Nat
  activeTimerStart : Option Nat
  finishedTimerStart : Option Nat
  bittiStartTime : Option Nat
deriving DecidableEq, Repr

/-- The coordinator's initial mutable state: power `0.0`, state `"idle"`,
all timers unset (`__init__`). -/
def initialCoord (now : Nat) : Coord :=
  { currentPower := 0
    currentState := "idle"
    stateStartTime := now
    cycleStartTime := none
    activeTimerStart := none
    finishedTimerStart := none
    bittiStartTime := none }

/-- One reading of the configured power sensor, as `_async_update_data`
sees it: the entity is missing or its state is "unknown"/"unavailable"
(`unavailable`), `float(...)` fails on it (`invalid`), or it parses to a
number (`value`). -/
inductive Reading where
  | unavailable : Reading
  | invalid : Reading
  | value : ℚ → Reading

/-- A value of the snapshot dictionary the coordinator returns: a string,
a rational (power), a natural number (durations and delays), a boolean, a
nested dictionary, or a list of values. -/
inductive Val where
  | vs : String → Val
  | vq : ℚ → Val
  | vn : Nat → Val
  | vb : Bool → Val
  | vd : List (String × Val) → Val
  | vl : List Val → Val

/-- `self.has_bitti_state`: whether some configured state is literally
named "bitti". -/
def hasBittiState (cfg : WWConfig) : Bool :=
  cfg.states.any (fun s => s.name == "bitti")

/-- Stable insertion into a list sorted by threshold descending: the new
element goes after every element whose threshold is greater than or equal
to its own, so elements with equal thresholds keep their original order,
exactly as Python's stable `list.sort(..., reverse=True)` leaves them. -/
def insertDesc (s : StateDef) : List StateDef → List StateDef
  | [] => [s]
  | t :: ts => if t.threshold < s.threshold then s :: t :: ts else t :: insertDesc s ts

/-- Stable sort by threshold descending (models
`greater_states.sort(key=threshold, reverse=True)`; a stable sort's output
is uniquely determined by the comparator and the input order). -/
def sortDesc (l : List StateDef) : List StateDef :=
  l.foldl (fun acc s => insertDesc s acc) []

/-- Stable insertion into a list sorted by threshold ascending: the new
element goes after every element whose threshold is less than or equal to
its own. -/
def insertAsc (s : StateDef) : List StateDef → List StateDef
  | [] => [s]
  | t :: ts => if s.threshold < t.threshold then s :: t :: ts else t :: insertAsc s ts

/-- Stable sort by threshold ascending (models
`less_states.sort(key=threshold)`). -/
def sortAsc (l : List StateDef) : List StateDef :=
  l.foldl (fun acc s => insertAsc s acc) []

/-- `_determine_state_by_thresholds`: partition the configured states by
comparison direction, sort the "greater" rules by threshold descending and
the "less" rules ascending (stably, as Python's `list.sort` does), return
the first "greater" rule with `power > threshold`, else the first "less"
rule with `power < threshold`, else fall back to "idle" when no "bitti"
state is configured and `power < 1.0`, and otherwise "unknown". -/
def determineStateByThresholds (cfg : WWConfig) (power : ℚ) : String :=
  let greaterStates := cfg.states.filter (fun s => s.comparison == "greater")
  let lessStates := cfg.states.filter (fun s => s.comparison == "less")
  let greaterSorted := sortDesc greaterStates
  let lessSorted := sortAsc lessStates
  match greaterSorted.find? (fun s => decide (s.threshold < power)) with
  | some s => s.name
  | none =>
    match lessSorted.find? (fun s => decide (power < s.threshold)) with
    | some s => s.name
    | none =>
      if ¬ hasBittiState cfg ∧ power < 1 then "idle" else "unknown"

/-- `_get_timer_duration`: seconds since a timer started, `0` when the
timer is unset. -/
def getTimerDuration (start : Option Nat) (now : Nat) : Nat :=
  match start with
  | some t => now - t
  | none => 0

/-- The membership test `s not in ["idle", "bitti", "unknown"]` that the
coordinator uses to recognise a strictly active state. -/
def isActiveName (s : String) : Prop :=
  s ≠ "idle" ∧ s ≠ "bitti" ∧ s ≠ "unknown"

instance (s : String) : Decidable (isActiveName s) := by
  unfold isActiveName; infer_instance

/-- `_apply_delays`: given the raw threshold classification `ts`, apply the
active/finished debounce delays, returning the proposed state together
with the updated timer fields. -/
def applyDelays (cfg : WWConfig) (c : Coord) (ts : String) (now : Nat) :
    String × Coord :=
  if c.currentState = "idle" then
    if ts ≠ "idle" ∧ ts ≠ "unknown" then
      let start := c.activeTimerStart.getD now
      if cfg.activeDelay ≤ now - start then
        (ts, { c with activeTimerStart := none })
      else
        ("idle", { c with activeTimerStart := some start })
    else
      ("idle", { c with activeTimerStart := none })
  else if isActiveName c.currentState then
    if hasBittiState cfg ∧ ts = "bitti" then
      let start := c.finishedTimerStart.getD now
      if cfg.finishedDelay ≤ now - start then
        ("bitti", { c with finishedTimerStart := none, bittiStartTime := some now })
      else
        (c.currentState, { c with finishedTimerStart := some start })
    else
      ((if ts ≠ "unknown" then ts else c.currentState),
        { c with finishedTimerStart := none })
  else
    ((if ts ≠ "unknown" then ts else c.currentState), c)

/-- `_check_idle_delay`: while the current state is "bitti", ignore the
proposed state and transition to "idle" exactly when at least `idle_delay`
seconds have elapsed since `bitti_start_time` (initialising that timestamp
to `now` if it is unset); otherwise pass the proposed state through,
clearing `bitti_start_time` whenever the proposed state is not "bitti". -/
def checkIdleDelay (cfg : WWConfig) (c : Coord) (proposed : String) (now : Nat) :
    String × Coord :=
  if c.currentState = "bitti" then
    let start := c.bittiStartTime.getD now
    if cfg.idleDelay ≤ now - start then
      ("idle", { c with bittiStartTime := none })
    else
      ("bitti", { c with bittiStartTime := some start })
  else
    if proposed ≠ "bitti" then
      (proposed, { c with bittiStartTime := none })
    else
      (proposed, c)

/-- `_on_state_change`: record the new state and its entry time; open the
cycle (`cycle_start_time = now`) when leaving "idle" for a strictly active
state, and close it (`cycle_start_time = None`) when a strictly active
state gives way to "idle" or "bitti". -/
def onStateChange (c : Coord) (newState : String) (now : Nat) : Coord :=
  let old := c.currentState
  let c1 := { c with currentState := newState, stateStartTime := now }
  if old = "idle" ∧ isActiveName newState then
    { c1 with cycleStartTime := some now }
  else if isActiveName old ∧ (newState = "idle" ∨ newState = "bitti") then
    { c1 with cycleStartTime := none }
  else
    c1

/-- `_get_state_duration`: seconds since the current state was entered. -/
def getStateDuration (c : Coord) (now : Nat) : Nat :=
  now - c.stateStartTime

/-- `_get_cycle_duration`: seconds since the cycle opened while a cycle is
open and the current state is strictly active, else `0`. -/
def getCycleDuration (c : Coord) (now : Nat) : Nat :=
  match c.cycleStartTime with
  | some t => if isActiveName c.currentState then now - t else 0
  | none => 0

/-- The `state_icons` lookup built in `__init__` (later duplicates
overwrite earlier ones) followed by `.get(current_state, "mdi:circle")`. -/
def stateIconFor (cfg : WWConfig) (name : String) : String :=
  (cfg.states.foldl (fun acc s => if s.name = name then some s.icon else acc) none).getD "mdi:circle"

/-- One `states_config` entry as it appears in the snapshot. -/
def encodeStateDef (s : StateDef) : Val :=
  Val.vd [("name", Val.vs s.name), ("threshold", Val.vq s.threshold),
          ("comparison", Val.vs s.comparison), ("icon", Val.vs s.icon)]

/-- The dictionary `_async_update_data` returns on a successful tick, with
the same keys in the same order as the source. -/
def buildSnapshot (cfg : WWConfig) (c : Coord) (now : Nat) : List (String × Val) :=
  let isActive : Bool := decide (isActiveName c.currentState)
  let bittiDuration : Nat :=
    if c.currentState = "bitti" then
      match c.bittiStartTime with
      | some t => now - t
      | none => 0
    else 0
  [ ("current_power", Val.vq c.currentPower),
    ("current_state", Val.vs c.currentState),
    ("current_icon", Val.vs (stateIconFor cfg c.currentState)),
    ("state_duration", Val.vn (getStateDuration c now)),
    ("cycle_duration", Val.vn (getCycleDuration c now)),
    ("is_active", Val.vb isActive),
    ("bitti_duration", Val.vn bittiDuration),
    ("idle_remaining", Val.vn (if c.currentState = "bitti" then cfg.idleDelay - bittiDuration else 0)),
    ("timing_settings", Val.vd
      [ ("active_delay", Val.vn cfg.activeDelay),
        ("finished_delay", Val.vn cfg.finishedDelay),
        ("idle_delay", Val.vn cfg.idleDelay) ]),
    ("states_config", Val.vl (cfg.states.map encodeStateDef)),
    ("timers", Val.vd
      [ ("active_timer", Val.vn (getTimerDuration c.activeTimerStart now)),
        ("finished_timer", Val.vn (getTimerDuration c.finishedTimerStart now)) ]) ]

/-- `_create_error_data`: the safe default snapshot returned when the
sensor reading is missing, unavailable, or fails to parse. -/
def createErrorData (cfg : WWConfig) : List (String × Val) :=
  [ ("current_power", Val.vq 0),
    ("current_state", Val.vs "error"),
    ("current_icon", Val.vs "mdi:alert-circle"),
    ("state_duration", Val.vn 0),
    ("cycle_duration", Val.vn 0),
    ("is_active", Val.vb false),
    ("bitti_duration", Val.vn 0),
    ("idle_remaining", Val.vn 0),
    ("timing_settings", Val.vd
      [ ("active_delay", Val.vn cfg.activeDelay),
        ("finished_delay", Val.vn cfg.finishedDelay),
        ("idle_delay", Val.vn cfg.idleDelay) ]),
    ("states_config", Val.vl (cfg.states.map encodeStateDef)),
    ("timers", Val.vd
      [ ("active_timer", Val.vn 0),
        ("finished_timer", Val.vn 0) ]) ]

/-- `_async_update_data`: one tick. An unavailable or unparsable reading
returns the error snapshot and leaves every coordinator field untouched
(the branches return before any assignment). A numeric reading stores the
power, classifies it, applies the debounce delays and the idle-delay
check, invokes `_on_state_change` when the resulting state differs, and
builds the snapshot. Returns the snapshot together with the updated
coordinator state. -/
def tick (cfg : WWConfig) (c : Coord) (r : Reading) (now : Nat) :
    List (String × Val) × Coord :=
  match r with
  | Reading.unavailable => (createErrorData cfg, c)
  | Reading.invalid => (createErrorData cfg, c)
  | Reading.value p =>
    let c0 := { c with currentPower := p }
    let ts := determineStateByThresholds cfg p
    let sc1 := applyDelays cfg c0 ts now
    let sc2 := checkIdleDelay cfg sc1.2 sc1.1 now
    let c3 := if sc2.1 ≠ sc2.2.currentState then onStateChange sc2.2 sc2.1 now else sc2.2
    (buildSnapshot cfg c3 now, c3)

/-- Fold `tick` over a list of (timestamp, reading) pairs, keeping only
the coordinator state. -/
def runTicks (cfg : WWConfig) (c : Coord) (l : List (Nat × Reading)) : Coord :=
  l.foldl (fun acc tr => (tick cfg acc tr.2 tr.1).2) c

/-- A run of `n` ticks starting at time `start`, spaced `step` seconds
apart, all reading the same power value. -/
def uniformTicks (start n step : Nat) (p : ℚ) : List (Nat × Reading) :=
  (List.range n).map (fun i => (start + step * i, Reading.value p))

/-- The energy sensor's mutable fields (`WattWatcherEnergySensor`):
`_energy_this_cycle` and `_last_update_time`. -/
structure EnergySensorState where
  energyThisCycle : ℚ
  lastUpdateTime : Nat
deriving DecidableEq, Repr

/-- Python equality between a snapshot value and a string. -/
def valEqStr : Val → String → Bool
  | Val.vs s, t => s == t
  | _, _ => false

/-- `WattWatcherEnergySensor._handle_coordinator_update`: reads
`avg_power` from the snapshot (defaulting to `0.0`), computes
`avg_power * (Δt / 3600)`, adds it only when the snapshot's `state` equals
`"running"`, and resets the accumulator to `0` when `state` (defaulting to
`"unknown"`) is neither `"running"` nor `"unknown"`. -/
def energyUpdate (data : List (String × Val)) (es : EnergySensorState) (now : Nat) :
    EnergySensorState :=
  let timeDiff : ℚ := (now : ℚ) - (es.lastUpdateTime : ℚ)
  let avgPower : ℚ :=
    match List.lookup "avg_power" data with
    | some (Val.vq x) => x
    | some (Val.vn n) => (n : ℚ)
    | _ => 0
  let increment := avgPower * (timeDiff / 3600)
  let e1 :=
    if (List.lookup "state" data).any (fun v => valEqStr v "running") then
      es.energyThisCycle + increment
    else
      es.energyThisCycle
  let currentState : Val := (List.lookup "state" data).getD (Val.vs "unknown")
  let e2 :=
    if ¬ (valEqStr currentState "running" || valEqStr currentState "unknown") then 0 else e1
  { energyThisCycle := e2, lastUpdateTime := now }

/-- `WattWatcherStatusSensor.native_value`:
`self.coordinator.data.get("state", "unknown")`. -/
def statusNativeValue (data : List (String × Val)) : Val :=
  (List.lookup "state" data).getD (Val.vs "unknown")

/-- Scenario A of the spec, with the low-power state carrying the name
"bitti" that the coordinator's finish logic is hard-coded to:
states `run` (threshold 50, greater) and `bitti` (threshold 5, less),
`active_delay` 60, `finished_delay` 300, `idle_delay` 600,
`scan_interval` 10. -/
def cfgScenarioA : WWConfig :=
  { states := [⟨"run", 50, "greater", "mdi:play"⟩, ⟨"bitti", 5, "less", "mdi:check"⟩]
    activeDelay := 60
    finishedDelay := 300
    idleDelay := 600
    scanInterval := 10 }

/-- Scenario A exactly as the spec writes it: the low-power state is named
"done" rather than "bitti". -/
def cfgScenarioDone : WWConfig :=
  { states := [⟨"run", 50, "greater", "mdi:play"⟩, ⟨"done", 5, "less", "mdi:check"⟩]
    activeDelay := 60
    finishedDelay := 300
    idleDelay := 600
    scanInterval := 10 }

/-- An empty state list with the default delays. -/
def cfgEmpty : WWConfig :=
  { states := [], activeDelay := 60, finishedDelay := 300, idleDelay := 600, scanInterval := 10 }

/-- Scenario A phase 1: power 80 for 70 s (ticks at t = 0, 10, ..., 60). -/
def phaseHigh : List (Nat × Reading) := uniformTicks 0 7 10 80

/-- Scenario A phase 2: power 2 for 310 s (ticks at t = 70, 80, ..., 370). -/
def phaseLow : List (Nat × Reading) := uniformTicks 70 31 10 2

/-- Scenario A phase 3: power 2 for 610 s more (ticks at t = 380, ..., 970). -/
def phaseTail : List (Nat × Reading) := uniformTicks 380 60 10 2

/-- Coordinator state after phase 1: authoritative state "run", cycle
opened at t = 60. -/
def coordAfterHigh : Coord := runTicks cfgScenarioA (initialCoord 0) phaseHigh

/-- Coordinator state after phases 1 and 2: authoritative state "bitti",
entered at t = 370. -/
def coordAfterLow : Coord := runTicks cfgScenarioA (initialCoord 0) (phaseHigh ++ phaseLow)

/-- Coordinator state after phase 1 and a single low reading at t = 70:
state still "run", `finished_timer_start` = 70. -/
def coordFinTimer : Coord :=
  runTicks cfgScenarioA (initialCoord 0) (phaseHigh ++ [(70, Reading.value 2)])

/-! ### Helper lemmas -/

/-- The snapshot of a successful tick has no key "state" (the state is
published under "current_state"). -/
theorem lookup_state_buildSnapshot (cfg : WWConfig) (c : Coord) (now : Nat) :
    List.lookup "state" (buildSnapshot cfg c now) = none := rfl

/-- The error snapshot has no key "state" either. -/
theorem lookup_state_errorData (cfg : WWConfig) :
    List.lookup "state" (createErrorData cfg) = none := rfl

/-- Neither snapshot has a key "avg_power". -/
theorem lookup_avg_power_buildSnapshot (cfg : WWConfig) (c : Coord) (now : Nat) :
    List.lookup "avg_power" (buildSnapshot cfg c now) = none := rfl

/-- `energyUpdate` leaves the accumulator unchanged on any snapshot that
has no "state" key. -/
theorem energyUpdate_const_of_no_state (data : List (String × Val))
    (es : EnergySensorState) (now : Nat)
    (h : List.lookup "state" data = none) :
    (energyUpdate data es now).energyThisCycle = es.energyThisCycle := by
  simp [energyUpdate, h, valEqStr]

/-- Membership in a descending insertion. -/
theorem mem_insertDesc {a s : StateDef} {l : List StateDef} :
    a ∈ insertDesc s l ↔ a = s ∨ a ∈ l := by
  induction l with
  | nil => simp [insertDesc]
  | cons t ts ih =>
    rw [insertDesc]
    split
    · simp [List.mem_cons]
    · simp only [List.mem_cons, ih]
      tauto

/-- Descending insertion preserves descending sortedness. -/
theorem pairwise_insertDesc {s : StateDef} {l : List StateDef}
    (h : l.Pairwise (fun a b => b.threshold ≤ a.threshold)) :
    (insertDesc s l).Pairwise (fun a b => b.threshold ≤ a.threshold) := by
  induction l with
  | nil => simp [insertDesc]
  | cons t ts ih =>
    rw [insertDesc]
    rcases List.pairwise_cons.mp h with ⟨h1, h2⟩
    split
    · rename_i hlt
      refine List.Pairwise.cons ?_ h
      intro b hb
      rcases List.mem_cons.mp hb with rfl | hb
      · exact le_of_lt hlt
      · exact le_trans (h1 b hb) (le_of_lt hlt)
    · rename_i hge
      refine List.Pairwise.cons ?_ (ih h2)
      intro b hb
      rcases mem_insertDesc.mp hb with rfl | hb
      · exact not_lt.mp hge
      · exact h1 b hb

/-- Membership in the folded descending sort, generalized over the
accumulator. -/
theorem mem_sortDesc_aux {a : StateDef} (l acc : List StateDef) :
    (a ∈ l.foldl (fun acc s => insertDesc s acc) acc) ↔ a ∈ acc ∨ a ∈ l := by
  induction l generalizing acc with
  | nil => simp
  | cons t ts ih =>
    rw [List.foldl_cons, ih]
    simp only [mem_insertDesc, List.mem_cons]
    tauto

/-- `sortDesc` is a reordering: it has exactly the members of its input. -/
theorem mem_sortDesc {a : StateDef} {l : List StateDef} :
    a ∈ sortDesc l ↔ a ∈ l := by
  unfold sortDesc
  rw [mem_sortDesc_aux]
  simp

/-- The folded descending sort is sorted, for any sorted accumulator. -/
theorem pairwise_sortDesc_aux (l : List StateDef) (acc : List StateDef)
    (h : acc.Pairwise (fun a b => b.threshold ≤ a.threshold)) :
    (l.foldl (fun acc s => insertDesc s acc) acc).Pairwise
      (fun a b => b.threshold ≤ a.threshold) := by
  induction l generalizing acc with
  | nil => simpa
  | cons t ts ih => exact ih _ (pairwise_insertDesc h)

/-- `sortDesc` sorts by threshold descending. -/
theorem pairwise_sortDesc (l : List StateDef) :
    (sortDesc l).Pairwise (fun a b => b.threshold ≤ a.threshold) :=
  pairwise_sortDesc_aux l [] List.Pairwise.nil

/-- Membership in an ascending insertion. -/
theorem mem_insertAsc {a s : StateDef} {l : List StateDef} :
    a ∈ insertAsc s l ↔ a = s ∨ a ∈ l := by
  induction l with
  | nil => simp [insertAsc]
  | cons t ts ih =>
    rw [insertAsc]
    split
    · simp [List.mem_cons]
    · simp only [List.mem_cons, ih]
      tauto

/-- Membership in the folded ascending sort. -/
theorem mem_sortAsc_aux {a : StateDef} (l acc : List StateDef) :
    (a ∈ l.foldl (fun acc s => insertAsc s acc) acc) ↔ a ∈ acc ∨ a ∈ l := by
  induction l generalizing acc with
  | nil => simp
  | cons t ts ih =>
    rw [List.foldl_cons, ih]
    simp only [mem_insertAsc, List.mem_cons]
    tauto

/-- `sortAsc` has exactly the members of its input. -/
theorem mem_sortAsc {a : StateDef} {l : List StateDef} :
    a ∈ sortAsc l ↔ a ∈ l := by
  unfold sortAsc
  rw [mem_sortAsc_aux]
  simp

/-- In a list sorted by threshold descending, the first rule satisfied by
`power` has the maximal threshold among all satisfied rules. -/
theorem find?_desc_max {power : ℚ} {l : List StateDef} {s : StateDef}
    (hs : l.Pairwise (fun a b => b.threshold ≤ a.threshold))
    (hf : l.find? (fun x => decide (x.threshold < power)) = some s) :
    ∀ t ∈ l, t.threshold < power → t.threshold ≤ s.threshold := by
  induction l with
  | nil => simp at hf
  | cons a as ih =>
    rcases List.pairwise_cons.mp hs with ⟨h1, h2⟩
    cases hp : decide (a.threshold < power) with
    | true =>
      rw [List.find?_cons, hp] at hf
      cases hf
      intro t ht _
      rcases List.mem_cons.mp ht with rfl | ht
      · exact le_refl _
      · exact h1 t ht
    | false =>
      rw [List.find?_cons, hp] at hf
      have hpa : ¬ a.threshold < power := by simpa using hp
      intro t ht hlt
      rcases List.mem_cons.mp ht with rfl | ht
      · exact absurd hlt hpa
      · exact ih h2 hf t ht hlt

/-- `_apply_delays` never writes `current_state`, `state_start_time`,
`cycle_start_time` or `current_power`: it only returns a proposed state
and updates the debounce timers and `bitti_start_time`. -/
theorem applyDelays_keeps (cfg : WWConfig) (c : Coord) (ts : String) (now : Nat) :
    ((applyDelays cfg c ts now).2).currentState = c.currentState
    ∧ ((applyDelays cfg c ts now).2).stateStartTime = c.stateStartTime
    ∧ ((applyDelays cfg c ts now).2).cycleStartTime = c.cycleStartTime
    ∧ ((applyDelays cfg c ts now).2).currentPower = c.currentPower := by
  simp only [applyDelays]
  repeat' split
  all_goals exact ⟨rfl, rfl, rfl, rfl⟩

/-- `_check_idle_delay` only ever writes `bitti_start_time`. -/
theorem checkIdleDelay_keeps (cfg : WWConfig) (c : Coord) (proposed : String) (now : Nat) :
    ((checkIdleDelay cfg c proposed now).2).currentState = c.currentState
    ∧ ((checkIdleDelay cfg c proposed now).2).stateStartTime = c.stateStartTime
    ∧ ((checkIdleDelay cfg c proposed now).2).cycleStartTime = c.cycleStartTime
    ∧ ((checkIdleDelay cfg c proposed now).2).activeTimerStart = c.activeTimerStart
    ∧ ((checkIdleDelay cfg c proposed now).2).finishedTimerStart = c.finishedTimerStart := by
  simp only [checkIdleDelay]
  repeat' split
  all_goals exact ⟨rfl, rfl, rfl, rfl, rfl⟩

/-- `_on_state_change` installs the new state and never touches the three
timer fields. -/
theorem onStateChange_keeps (c : Coord) (s : String) (now : Nat) :
    (onStateChange c s now).currentState = s
    ∧ (onStateChange c s now).activeTimerStart = c.activeTimerStart
    ∧ (onStateChange c s now).finishedTimerStart = c.finishedTimerStart
    ∧ (onStateChange c s now).bittiStartTime = c.bittiStartTime := by
  simp only [onStateChange]
  repeat' split
  all_goals exact ⟨rfl, rfl, rfl, rfl⟩

/-- When a strictly active state gives way to another strictly active
state, `_on_state_change` neither opens nor closes the cycle. -/
theorem onStateChange_cycle_keep (c : Coord) (s : String) (now : Nat)
    (h1 : isActiveName c.currentState) (h2 : isActiveName s) :
    (onStateChange c s now).cycleStartTime = c.cycleStartTime := by
  have hne1 : ¬ (c.currentState = "idle" ∧ isActiveName s) := fun h => h1.1 h.1
  have hne2 : ¬ (isActiveName c.currentState ∧ (s = "idle" ∨ s = "bitti")) := by
    rintro ⟨-, h | h⟩
    · exact h2.1 h
    · exact h2.2.1 h
  simp only [onStateChange, if_neg hne1, if_neg hne2]

/-- A full tick with a numeric reading preserves `cycle_start_time`
whenever the state is strictly active both before and after the tick. -/
theorem tick_cycle_keep (cfg : WWConfig) (c : Coord) (p : ℚ) (now : Nat)
    (ha : isActiveName c.currentState)
    (ha2 : isActiveName ((tick cfg c (Reading.value p) now).2).currentState) :
    ((tick cfg c (Reading.value p) now).2).cycleStartTime = c.cycleStartTime := by
  simp only [tick] at ha2 ⊢
  set c0 : Coord := { c with currentPower := p } with hc0
  set ts := determineStateByThresholds cfg p with hts
  set sc1 := applyDelays cfg c0 ts now with hsc1
  set sc2 := checkIdleDelay cfg sc1.2 sc1.1 now with hsc2
  have hstate : sc2.2.currentState = c.currentState := by
    rw [hsc2]
    rw [(checkIdleDelay_keeps cfg sc1.2 sc1.1 now).1, hsc1,
      (applyDelays_keeps cfg c0 ts now).1]
  have hcycle : sc2.2.cycleStartTime = c.cycleStartTime := by
    rw [hsc2]
    rw [(checkIdleDelay_keeps cfg sc1.2 sc1.1 now).2.2.1, hsc1,
      (applyDelays_keeps cfg c0 ts now).2.2.1]
  by_cases h : sc2.1 = sc2.2.currentState
  · rw [if_neg (by simpa using h)] at ha2 ⊢
    exact hcycle
  · rw [if_pos h] at ha2 ⊢
    rw [(onStateChange_keeps sc2.2 sc2.1 now).1] at ha2
    rw [onStateChange_cycle_keep sc2.2 sc2.1 now (hstate ▸ ha) ha2]
    exact hcycle

/-! ### Claim theorems -/

/-- C5 (counterexample): with an empty state list and a reading of 0.5 W,
no rule is satisfied (there are none), yet the classifier returns "idle",
not "unknown": its no-match fallback returns "idle" whenever no
configured state is named "bitti" and the power is below 1.0 W. -/
theorem c5_classifier_counterexample :
    determineStateByThresholds cfgEmpty (mkRat 1 2) = "idle"
    ∧ determineStateByThresholds cfgEmpty (mkRat 1 2) ≠ "unknown" := by
  constructor <;> decide

/-- C5 (amended): when no GreaterThan rule and no LessThan rule is
satisfied, the classifier returns "unknown" unless no configured state is
named "bitti" and the reading is below 1.0 W, in which case it returns
"idle"; in particular, for an empty state list it returns "unknown" for
readings at or above 1.0 and "idle" for readings below 1.0. -/
theorem c5_classifier_fallback (cfg : WWConfig) (power : ℚ)
    (hg : ∀ s ∈ cfg.states, s.comparison = "greater" → ¬ s.threshold < power)
    (hl : ∀ s ∈ cfg.states, s.comparison = "less" → ¬ power < s.threshold) :
    determineStateByThresholds cfg power =
      if ¬ hasBittiState cfg ∧ power < 1 then "idle" else "unknown" := by
  have hfg : (sortDesc (cfg.states.filter (fun s => s.comparison == "greater"))).find?
      (fun s => decide (s.threshold < power)) = none := by
    rw [List.find?_eq_none]
    intro x hx
    rcases List.mem_filter.mp (mem_sortDesc.mp hx) with ⟨hmem, hcmp⟩
    simpa using hg x hmem (by simpa using hcmp)
  have hfl : (sortAsc (cfg.states.filter (fun s => s.comparison == "less"))).find?
      (fun s => decide (power < s.threshold)) = none := by
    rw [List.find?_eq_none]
    intro x hx
    rcases List.mem_filter.mp (mem_sortAsc.mp hx) with ⟨hmem, hcmp⟩
    simpa using hl x hmem (by simpa using hcmp)
  simp only [determineStateByThresholds, hfg, hfl]

/-- C5 (witness for the amended theorem): on the empty state list with a
reading of 2 W the hypotheses hold vacuously and the classifier returns
"unknown". -/
theorem c5_classifier_fallback_witness :
    determineStateByThresholds cfgEmpty 2 =
      if ¬ hasBittiState cfgEmpty ∧ (2 : ℚ) < 1 then "idle" else "unknown" :=
  c5_classifier_fallback cfgEmpty 2 (by simp [cfgEmpty]) (by simp [cfgEmpty])

/-- C8: whenever at least one GreaterThan rule is strictly satisfied, the
classifier returns the name of a satisfied GreaterThan rule whose
threshold is maximal among all satisfied GreaterThan rules (GreaterThan
rules are checked before any LessThan rule, so they take priority), and a
reading exactly equal to a rule's threshold satisfies neither the strict
greater comparison nor the strict less comparison used by the
classifier. -/
theorem c8_classifier_priority (cfg : WWConfig) (power : ℚ)
    (hg : ∃ s ∈ cfg.states, s.comparison = "greater" ∧ s.threshold < power) :
    (∃ s ∈ cfg.states, s.comparison = "greater" ∧ s.threshold < power ∧
        determineStateByThresholds cfg power = s.name ∧
        ∀ t ∈ cfg.states, t.comparison = "greater" → t.threshold < power →
          t.threshold ≤ s.threshold)
    ∧ ∀ s ∈ cfg.states, s.threshold = power →
        ¬ s.threshold < power ∧ ¬ power < s.threshold := by
  constructor
  · obtain ⟨s0, hs0mem, hs0cmp, hs0lt⟩ := hg
    have hs0' : s0 ∈ sortDesc (cfg.states.filter (fun s => s.comparison == "greater")) :=
      mem_sortDesc.mpr (List.mem_filter.mpr ⟨hs0mem, by simpa using hs0cmp⟩)
    have hsome : ((sortDesc (cfg.states.filter (fun s => s.comparison == "greater"))).find?
        (fun s => decide (s.threshold < power))).isSome :=
      List.find?_isSome.mpr ⟨s0, hs0', by simpa using hs0lt⟩
    obtain ⟨s, hs⟩ := Option.isSome_iff_exists.mp hsome
    have hmem : s ∈ sortDesc (cfg.states.filter (fun s => s.comparison == "greater")) :=
      List.mem_of_find?_eq_some hs
    have hsat : s.threshold < power := by simpa using List.find?_some hs
    rcases List.mem_filter.mp (mem_sortDesc.mp hmem) with ⟨hmem2, hcmp2⟩
    refine ⟨s, hmem2, by simpa using hcmp2, hsat, ?_, ?_⟩
    · simp only [determineStateByThresholds, hs]
    · intro t htm htc htl
      exact find?_desc_max (pairwise_sortDesc _) hs t
        (mem_sortDesc.mpr (List.mem_filter.mpr ⟨htm, by simpa using htc⟩)) htl
  · intro s _ hEq
    constructor <;> simp [hEq]

/-- C8 (witness): applied to the Scenario A configuration at 80 W, where
the "run" rule (threshold 50, greater) is satisfied. -/
theorem c8_classifier_priority_witness :
    (∃ s ∈ cfgScenarioA.states, s.comparison = "greater" ∧ s.threshold < 80 ∧
        determineStateByThresholds cfgScenarioA 80 = s.name ∧
        ∀ t ∈ cfgScenarioA.states, t.comparison = "greater" → t.threshold < 80 →
          t.threshold ≤ s.threshold)
    ∧ ∀ s ∈ cfgScenarioA.states, s.threshold = 80 →
        ¬ s.threshold < 80 ∧ ¬ (80 : ℚ) < s.threshold :=
  c8_classifier_priority cfgScenarioA 80
    ⟨⟨"run", 50, "greater", "mdi:play"⟩, by decide, by decide, by decide⟩

/-- C1 (counterexample): Scenario A exactly as the claim states it, with
the low-power state named "done". After power 80 for 70 s the state is
"run"; the claim says the state then stays "run" until about 300 s into
the low-power regime and later becomes "idle", but already at the first
low-power tick (t = 70, 10 s into the regime) the state is "done", and
after the full 920 s of power 2 it is still "done" — it never becomes
"idle", because the coordinator's finish/idle logic only fires for a
state literally named "bitti". -/
theorem c1_scenarioA_counterexample :
    (runTicks cfgScenarioDone (initialCoord 0) (phaseHigh ++ [(70, Reading.value 2)])).currentState = "done"
    ∧ (runTicks cfgScenarioDone (initialCoord 0) (phaseHigh ++ phaseLow ++ phaseTail)).currentState = "done" := by
  constructor <;> decide

/-- C1 (amended): Scenario A holds once the low-power state carries the
name "bitti" (the name the coordinator's finish logic is hard-coded to).
Feeding power 80 for 70 s leaves the state "idle" through t = 50 and makes
it "run" at t = 60; feeding power 2 from t = 70 leaves it "run" through
t = 360 and makes it "bitti" at t = 370 (300 s after the low-power regime
began); continuing power 2 leaves it "bitti" through t = 960 and makes it
"idle" at t = 970 (600 s after entering "bitti"). -/
theorem c1_scenarioA_amended :
    (runTicks cfgScenarioA (initialCoord 0) (uniformTicks 0 6 10 80)).currentState = "idle"
    ∧ (runTicks cfgScenarioA (initialCoord 0) phaseHigh).currentState = "run"
    ∧ (runTicks cfgScenarioA (initialCoord 0) (phaseHigh ++ uniformTicks 70 30 10 2)).currentState = "run"
    ∧ (runTicks cfgScenarioA (initialCoord 0) (phaseHigh ++ phaseLow)).currentState = "bitti"
    ∧ (runTicks cfgScenarioA (initialCoord 0) (phaseHigh ++ phaseLow ++ uniformTicks 380 59 10 2)).currentState = "bitti"
    ∧ (runTicks cfgScenarioA (initialCoord 0) (phaseHigh ++ phaseLow ++ phaseTail)).currentState = "idle" := by
  refine ⟨?_, ?_, ?_, ?_, ?_, ?_⟩ <;> decide

/-- C2: the energy sensor's update never changes `_energy_this_cycle` on
any snapshot the coordinator produces, for any tick whatsoever: it reads
the snapshot keys "avg_power" and "state", and the coordinator publishes
neither (power is under "current_power", the state under
"current_state"), so the increment is always `0 * Δt`, the
`state == "running"` gate is always false, and the reset gate compares
the default "unknown", which is excluded from resetting. The accumulator
therefore remains at its initial value forever, contradicting both the
claimed trapezoidal accumulation and the claimed reset on Idle. -/
theorem c2_energy_never_changes (cfg : WWConfig) (c : Coord) (r : Reading)
    (now now2 : Nat) (es : EnergySensorState) :
    (energyUpdate ((tick cfg c r now).1) es now2).energyThisCycle = es.energyThisCycle := by
  cases r with
  | unavailable => exact energyUpdate_const_of_no_state _ es now2 (lookup_state_errorData cfg)
  | invalid => exact energyUpdate_const_of_no_state _ es now2 (lookup_state_errorData cfg)
  | value p =>
    exact energyUpdate_const_of_no_state _ es now2 (lookup_state_buildSnapshot cfg _ now)

/-- C3 (counterexample): the reported `cycle_duration` is `0` at snapshots
whose state is not "idle". At the very tick the state becomes "run"
(t = 60) the snapshot reports state "run" with `cycle_duration` 0 (the
cycle opened this same tick), and at t = 380, with the state "bitti", the
snapshot again reports `cycle_duration` 0 although the state is not
"idle" (the cycle closed when "bitti" was entered, not on return to
"idle"). -/
theorem c3_cycle_duration_counterexample :
    List.lookup "current_state"
        ((tick cfgScenarioA (runTicks cfgScenarioA (initialCoord 0) (uniformTicks 0 6 10 80))
          (Reading.value 80) 60).1) = some (Val.vs "run")
    ∧ List.lookup "cycle_duration"
        ((tick cfgScenarioA (runTicks cfgScenarioA (initialCoord 0) (uniformTicks 0 6 10 80))
          (Reading.value 80) 60).1) = some (Val.vn 0)
    ∧ List.lookup "current_state"
        ((tick cfgScenarioA coordAfterLow (Reading.value 2) 380).1) = some (Val.vs "bitti")
    ∧ List.lookup "cycle_duration"
        ((tick cfgScenarioA coordAfterLow (Reading.value 2) 380).1) = some (Val.vn 0) :=
  ⟨rfl, rfl, rfl, rfl⟩

/-- C3 (amended): the reported cycleDuration is `0` whenever the current
state is "idle", "bitti" or "unknown" (not only "idle"); it can also be
`0` at the very tick a cycle opens. While the state is strictly active
both before and after a tick, the cycle start timestamp is preserved and
the reported cycleDuration is non-decreasing. -/
theorem c3_cycle_duration_amended (cfg : WWConfig) (c : Coord) :
    (∀ now, ¬ isActiveName c.currentState → getCycleDuration c now = 0)
    ∧ ∀ p now now2, now ≤ now2 → isActiveName c.currentState →
        isActiveName ((tick cfg c (Reading.value p) now2).2).currentState →
        getCycleDuration c now ≤
          getCycleDuration ((tick cfg c (Reading.value p) now2).2) now2 := by
  constructor
  · intro now hna
    unfold getCycleDuration
    cases c.cycleStartTime with
    | none => rfl
    | some t => simp [hna]
  · intro p now now2 hle ha ha2
    have hcyc := tick_cycle_keep cfg c p now2 ha ha2
    unfold getCycleDuration
    rw [hcyc]
    cases c.cycleStartTime with
    | none => simp
    | some t =>
      show (if isActiveName c.currentState then now - t else 0) ≤
        (if isActiveName ((tick cfg c (Reading.value p) now2).2).currentState then now2 - t else 0)
      rw [if_pos ha, if_pos ha2]
      exact Nat.sub_le_sub_right hle t

/-- C3 (witness for the amended theorem): one tick from the state reached
after Scenario A's high phase ("run", cycle open since t = 60). -/
theorem c3_cycle_duration_amended_witness :
    getCycleDuration coordAfterHigh 60 ≤
      getCycleDuration ((tick cfgScenarioA coordAfterHigh (Reading.value 80) 70).2) 70 :=
  (c3_cycle_duration_amended cfgScenarioA coordAfterHigh).2 80 60 70 (by decide)
    (by decide) (by decide)

/-- C4 (counterexample): in the Scenario A configuration the Start state
(the first configured state) is "run", and a 2 W reading classifies as
"bitti", not "run". Yet from "idle" a single 2 W tick starts the active
timer (the claim says a classification differing from the Start state's
name clears it), and after `active_delay` seconds of 2 W readings the
state leaves "idle" — to "bitti", not to the Start state's name. -/
theorem c4_idle_gate_counterexample :
    determineStateByThresholds cfgScenarioA 2 = "bitti"
    ∧ (runTicks cfgScenarioA (initialCoord 0) [(0, Reading.value 2)]).currentState = "idle"
    ∧ (runTicks cfgScenarioA (initialCoord 0) [(0, Reading.value 2)]).activeTimerStart = some 0
    ∧ (runTicks cfgScenarioA (initialCoord 0) (uniformTicks 0 7 10 2)).currentState = "bitti" := by
  refine ⟨?_, ?_, ?_, ?_⟩ <;> decide

/-- C4 (amended): while the state is "idle", the active timer
starts/continues whenever the raw classification is any name other than
"idle" and "unknown" — not only the Start state's name; a tick whose
classification is "idle" or "unknown" clears the timer and the state
remains "idle"; once a continuous run of qualifying classifications spans
at least `active_delay` seconds, the state transitions to the
classification of the transition tick (which need not be the first
configured state's name) and the timer is cleared. -/
theorem c4_idle_transition_amended (cfg : WWConfig) (c : Coord) (p : ℚ) (now : Nat)
    (h : c.currentState = "idle") :
    ((determineStateByThresholds cfg p = "idle" ∨ determineStateByThresholds cfg p = "unknown") →
      ((tick cfg c (Reading.value p) now).2).currentState = "idle"
      ∧ ((tick cfg c (Reading.value p) now).2).activeTimerStart = none)
    ∧ (determineStateByThresholds cfg p ≠ "idle" →
        determineStateByThresholds cfg p ≠ "unknown" →
        (now - c.activeTimerStart.getD now < cfg.activeDelay →
          ((tick cfg c (Reading.value p) now).2).currentState = "idle"
          ∧ ((tick cfg c (Reading.value p) now).2).activeTimerStart
              = some (c.activeTimerStart.getD now))
        ∧ (cfg.activeDelay ≤ now - c.activeTimerStart.getD now →
          ((tick cfg c (Reading.value p) now).2).currentState = determineStateByThresholds cfg p
          ∧ ((tick cfg c (Reading.value p) now).2).activeTimerStart = none)) := by
  constructor
  · intro hts
    rcases hts with h1 | h1 <;>
      simp [tick, applyDelays, checkIdleDelay, onStateChange, isActiveName, h, h1]
  · intro hne1 hne2
    constructor
    · intro hlt
      have hnle := not_le.mpr hlt
      by_cases htb : determineStateByThresholds cfg p = "bitti" <;>
        simp [tick, applyDelays, checkIdleDelay, onStateChange, isActiveName, h,
          hne1, hne2, hnle, htb]
    · intro hge
      by_cases htb : determineStateByThresholds cfg p = "bitti" <;>
        simp [tick, applyDelays, checkIdleDelay, onStateChange, isActiveName, h,
          hne1, hne2, hge, htb]

/-- C4 (witness for the amended theorem): the first 80 W tick from the
initial idle state starts the timer and keeps the state "idle". -/
theorem c4_idle_transition_amended_witness :
    ((tick cfgScenarioA (initialCoord 0) (Reading.value 80) 0).2).currentState = "idle"
    ∧ ((tick cfgScenarioA (initialCoord 0) (Reading.value 80) 0).2).activeTimerStart
        = some ((initialCoord 0).activeTimerStart.getD 0) :=
  ((c4_idle_transition_amended cfgScenarioA (initialCoord 0) 80 0 rfl).2
    (by decide) (by decide)).1 (by decide)

/-- C6 (counterexample): with the state "run" and `finished_timer_start`
set (one low reading at t = 70 started the finish debounce), an "unknown"
classification at t = 80 (20 W lies strictly between the thresholds)
leaves the state "run" but clears `finished_timer_start` — the claim that
every timer field is left unchanged is false. -/
theorem c6_unknown_counterexample :
    coordFinTimer.currentState = "run"
    ∧ coordFinTimer.finishedTimerStart = some 70
    ∧ determineStateByThresholds cfgScenarioA 20 = "unknown"
    ∧ ((tick cfgScenarioA coordFinTimer (Reading.value 20) 80).2).currentState = "run"
    ∧ ((tick cfgScenarioA coordFinTimer (Reading.value 20) 80).2).finishedTimerStart = none := by
  refine ⟨?_, ?_, ?_, ?_, ?_⟩ <;> decide

/-- C6 (amended): when the state is strictly active and the raw
classification is "unknown", the tick holds the state (an "unknown"
classification never forces a transition out of an active state) and
leaves `active_timer_start`, the state entry time and the cycle start
unchanged, but it resets `finished_timer_start` and `bitti_start_time`
to `None` rather than leaving them untouched. -/
theorem c6_unknown_hold (cfg : WWConfig) (c : Coord) (p : ℚ) (now : Nat)
    (ha : isActiveName c.currentState)
    (hu : determineStateByThresholds cfg p = "unknown") :
    ((tick cfg c (Reading.value p) now).2).currentState = c.currentState
    ∧ ((tick cfg c (Reading.value p) now).2).activeTimerStart = c.activeTimerStart
    ∧ ((tick cfg c (Reading.value p) now).2).finishedTimerStart = none
    ∧ ((tick cfg c (Reading.value p) now).2).bittiStartTime = none
    ∧ ((tick cfg c (Reading.value p) now).2).stateStartTime = c.stateStartTime
    ∧ ((tick cfg c (Reading.value p) now).2).cycleStartTime = c.cycleStartTime := by
  obtain ⟨h1, h2, h3⟩ := ha
  simp [tick, applyDelays, checkIdleDelay, onStateChange, isActiveName, hu, h1, h2, h3]

/-- C6 (witness for the amended theorem): the "run" state reached after
Scenario A's high phase holds through a 20 W ("unknown") tick. -/
theorem c6_unknown_hold_witness :
    ((tick cfgScenarioA coordAfterHigh (Reading.value 20) 70).2).currentState
        = coordAfterHigh.currentState
    ∧ ((tick cfgScenarioA coordAfterHigh (Reading.value 20) 70).2).activeTimerStart
        = coordAfterHigh.activeTimerStart
    ∧ ((tick cfgScenarioA coordAfterHigh (Reading.value 20) 70).2).finishedTimerStart = none
    ∧ ((tick cfgScenarioA coordAfterHigh (Reading.value 20) 70).2).bittiStartTime = none
    ∧ ((tick cfgScenarioA coordAfterHigh (Reading.value 20) 70).2).stateStartTime
        = coordAfterHigh.stateStartTime
    ∧ ((tick cfgScenarioA coordAfterHigh (Reading.value 20) 70).2).cycleStartTime
        = coordAfterHigh.cycleStartTime :=
  c6_unknown_hold cfgScenarioA coordAfterHigh 20 70 (by decide) (by decide)

/-- C7: while the state is "bitti" the tick ignores the raw
classification of the reading entirely: with `start` the recorded (or
self-healed) `bitti_start_time`, the state remains "bitti" with the start
preserved while fewer than `idle_delay` seconds have elapsed, and the
tick at which the elapsed time first reaches `idle_delay` forces the
state to "idle" and clears the timer — for every reading value `p`. -/
theorem c7_finish_cooldown (cfg : WWConfig) (c : Coord) (p : ℚ) (now : Nat)
    (h : c.currentState = "bitti") :
    (now - c.bittiStartTime.getD now < cfg.idleDelay →
      ((tick cfg c (Reading.value p) now).2).currentState = "bitti"
      ∧ ((tick cfg c (Reading.value p) now).2).bittiStartTime
          = some (c.bittiStartTime.getD now))
    ∧ (cfg.idleDelay ≤ now - c.bittiStartTime.getD now →
      ((tick cfg c (Reading.value p) now).2).currentState = "idle"
      ∧ ((tick cfg c (Reading.value p) now).2).bittiStartTime = none) := by
  constructor
  · intro hlt
    have hnle := not_le.mpr hlt
    simp [tick, applyDelays, checkIdleDelay, onStateChange, isActiveName, h, hnle]
  · intro hge
    simp [tick, applyDelays, checkIdleDelay, onStateChange, isActiveName, h, hge]

/-- C7 (witness): the "bitti" state entered at t = 370 is still "bitti"
at the t = 380 tick (10 s < 600 s), with its start timestamp kept. -/
theorem c7_finish_cooldown_witness :
    ((tick cfgScenarioA coordAfterLow (Reading.value 2) 380).2).currentState = "bitti"
    ∧ ((tick cfgScenarioA coordAfterLow (Reading.value 2) 380).2).bittiStartTime
        = some (coordAfterLow.bittiStartTime.getD 380) :=
  (c7_finish_cooldown cfgScenarioA coordAfterLow 2 380 (by decide)).1 (by decide)

/-- C9: an unavailable or unparsable sensor reading makes the tick return
the safe default snapshot and leave the whole coordinator state untouched
(no state, timer, or cycle mutation); the error snapshot reports power 0,
state "error" with `is_active` false, and zeroed durations. The embedding
is a total function, mirroring that the Python code catches the
`ValueError`/`AttributeError`/`TypeError` and never lets it escape. -/
theorem c9_sensor_failure_safe (cfg : WWConfig) (c : Coord) (now : Nat) :
    tick cfg c Reading.unavailable now = (createErrorData cfg, c)
    ∧ tick cfg c Reading.invalid now = (createErrorData cfg, c)
    ∧ List.lookup "current_power" (createErrorData cfg) = some (Val.vq 0)
    ∧ List.lookup "current_state" (createErrorData cfg) = some (Val.vs "error")
    ∧ List.lookup "is_active" (createErrorData cfg) = some (Val.vb false)
    ∧ List.lookup "cycle_duration" (createErrorData cfg) = some (Val.vn 0) :=
  ⟨rfl, rfl, rfl, rfl, rfl, rfl⟩

/-- C10: the status sensor's `native_value` looks up the key "state",
which neither the normal snapshot nor the error snapshot contains (the
coordinator publishes the state under "current_state"), so it evaluates
to the default string "unknown" on every snapshot the coordinator
produces. -/
theorem c10_status_sensor_unknown (cfg : WWConfig) (c : Coord) (p : ℚ) (now : Nat) :
    statusNativeValue ((tick cfg c (Reading.value p) now).1) = Val.vs "unknown"
    ∧ statusNativeValue (createErrorData cfg) = Val.vs "unknown" := by
  constructor
  · show (List.lookup "state" ((tick cfg c (Reading.value p) now).1)).getD (Val.vs "unknown") = Val.vs "unknown"
    rw [show (tick cfg c (Reading.value p) now).1 = buildSnapshot cfg _ now from rfl,
      lookup_state_buildSnapshot]
    rfl
  · rfl

end WattWatcher
